import Mathlib

/-!
Shallow embedding of the message-relay and echo-suppression core of the
whatsapp-discord-bridge repository (src/lib/database.js,
src/lib/whatsapp-manager.js, src/lib/discord-manager.js), together with
theorems settling the frozen claims about it.

Modelling conventions:
- Time is in milliseconds (a `Nat`).  The source stores ISO-8601 timestamp
  strings and compares them with `>` in SQL; for a fixed-width ISO format the
  lexicographic order coincides with chronological order, so comparisons are
  modelled as `<` on `Nat`.
- SQL tables are lists of records in insertion order; `SELECT COUNT(*)` is
  `List.filter` + `List.length`, `DELETE ... WHERE` is `List.filter` with the
  negated condition applied to every row, `UPDATE ... WHERE` is `List.map`
  guarded by the condition.
- In-memory `Set`/`Map` caches are duplicate-free lists / association lists in
  insertion order (JS sets and maps iterate in insertion order).
- JS 32-bit integer coercion (`hash & hash`, `<<`) is modelled by `toInt32`.
- JS string code units: the texts and identifiers handled by the bridge are
  BMP strings, for which UTF-16 code units coincide with code points, so
  `charCodeAt` is modelled by `Char.toNat`; `toLowerCase` is modelled on the
  ASCII range.
- Fallible external calls (the WhatsApp / Discord adapters) are represented by
  explicit outcome parameters; a storage layer that throws during a lookup is
  represented by a `dbFail` flag meaning every SQL statement executed in that
  call throws, which the source catches.
- `setTimeout` callbacks (the deferred cache evictions and the deferred
  processing of drained queues) run outside the synchronous step being
  modelled; the drained queue is therefore returned as an explicit list, in
  the order in which its elements will be handed to the handler.
-/

namespace Bridge

/-- JS `ToInt32` coercion: wrap an integer into the range [-2^31, 2^31). -/
def toInt32 (n : Int) : Int :=
  (n + 2 ^ 31) % 2 ^ 32 - 2 ^ 31

/-- One iteration of the rolling hash in database.js `createMessageHash`:
`hash = (hash << 5) - hash + char; hash = hash & hash` (both steps coerce to
32-bit signed integers). -/
def hashStep (h : Int) (c : Nat) : Int :=
  toInt32 (toInt32 (h * 32) - h + c)

/-- Characters removed by JS `String.prototype.trim` (whitespace; the inputs
under analysis only use the ASCII whitespace characters). -/
def jsSpaceChar (c : Char) : Bool :=
  c == ' ' || c == '\t' || c == '\n' || c == '\r'

/-- JS `trim`: drop whitespace from both ends. -/
def listTrim (l : List Char) : List Char :=
  ((l.dropWhile jsSpaceChar).reverse.dropWhile jsSpaceChar).reverse

/-- JS `toLowerCase` on a UTF-16 code unit, restricted to the ASCII range. -/
def lowerCode (n : Nat) : Nat :=
  if 65 ≤ n && n ≤ 90 then n + 32 else n

/-- database.js `createMessageHash(content)`: trim, lowercase, then fold the
rolling 32-bit hash over the code units.  The source renders the result with
`toString()`, which is injective on integers, so the hash is kept as `Int`. -/
def createMessageHash (content : String) : Int :=
  ((listTrim content.data).map (fun c => lowerCode c.toNat)).foldl hashStep 0

/-- database.js `createFileHash(filename, fileSize, chatId)` hashes
`filename:fileSize:chatId:timestamp`, where `timestamp` is `Date.now()`. -/
def createFileHash (filename : String) (fileSize : Nat) (chatId : String)
    (timestamp : Nat) : Int :=
  createMessageHash
    (filename ++ ":" ++ toString fileSize ++ ":" ++ chatId ++ ":" ++ toString timestamp)

/-- Substring occurrence test on character lists (helper for `jsIncludes`). -/
def containsSub (pat : List Char) : List Char → Bool
  | [] => pat.isEmpty
  | c :: t => pat.isPrefixOf (c :: t) || containsSub pat t

/-- JS `String.prototype.includes`. -/
def jsIncludes (s pat : String) : Bool :=
  containsSub pat.data s.data

/-- JS `String.prototype.endsWith`. -/
def jsEndsWith (s suf : String) : Bool :=
  suf.data.isSuffixOf s.data

/-- JS truthiness of an optional string: `null`/`undefined` and `""` are
falsy. -/
def strTruthy : Option String → Bool
  | some s => !s.isEmpty
  | none => false

/-- JS `a || d` for an optional string `a` and a string default `d`. -/
def jsOrStr (a : Option String) (d : String) : String :=
  match a with
  | some s => if s.isEmpty then d else s
  | none => d

/-- Row of the `discord_sent_messages` table (content-hash fingerprints). -/
structure SentMessageRec where
  waChatId : String
  messageContent : String
  messageHash : Int
  expiresAt : Nat
  deriving DecidableEq

/-- Row of the `discord_sent_message_ids` table (message-id fingerprints;
`wa_message_id` carries a UNIQUE constraint). -/
structure SentMessageIdRec where
  waMessageId : String
  expiresAt : Nat
  deriving DecidableEq

/-- Row of the `discord_sent_file_hashes` table (file-identity
fingerprints). -/
structure SentFileHashRec where
  waChatId : String
  fileHash : Int
  filename : String
  fileSize : Nat
  expiresAt : Nat
  deriving DecidableEq

/-- Row of the `pending_media_counts` table (`wa_chat_id` carries a UNIQUE
constraint). -/
structure PendingMediaRec where
  waChatId : String
  count : Int
  createdAt : Nat
  expiresAt : Nat
  deriving DecidableEq

/-- Row of the `chat_mappings` table.  `chatType` is `Option` because the
column is nullable (older rows may lack it). -/
structure ChatMapping where
  waChatId : String
  dcChannelId : String
  chatName : String
  chatType : Option String
  isMuted : Bool
  createdAt : Nat
  lastActivity : Nat
  messageCount : Nat
  deriving DecidableEq

/-- Row of the `message_logs` table. -/
structure MessageLogRec where
  waChatId : String
  dcChannelId : String
  messageBody : String
  senderName : String
  messageType : String
  forwarded : Bool
  deriving DecidableEq

/-- Row of the `quoted_messages` table. -/
structure QuotedMessageRec where
  originalMessageId : String
  originalPlatform : String
  waChatId : String
  dcChannelId : String
  messageContent : String
  senderName : String
  deriving DecidableEq

/-- Inbound WhatsApp event as consumed by whatsapp-manager.js: the fields of
the open-wa message object that the router reads.  `from`/`to`/`type` are
keywords in Lean and are renamed `fromId`/`toId`/`mtype`. -/
structure WaMessage where
  id : Option String
  body : Option String
  mtype : String
  fromId : String
  toId : Option String
  author : Option String
  chatId : Option String
  filename : Option String
  size : Option Nat
  deriving DecidableEq

/-- Per-chat sending lock: `this.sendingLocks` maps a chat id to
`{ locked: boolean, queue: [] }`. -/
structure SendingLock where
  locked : Bool
  queue : List WaMessage
  deriving DecidableEq

/-- The whole DatabaseManager state: the SQLite tables, the single
`bridge_state` row, and the four in-memory caches.  The in-memory `Map`
`this.pendingMediaCounts` is named `pendingMediaCountsMem` to distinguish it
from the `pending_media_counts` table. -/
structure DbState where
  chatMappings : List ChatMapping
  messageLogs : List MessageLogRec
  discordSentMessages : List SentMessageRec
  discordSentMessageIds : List SentMessageIdRec
  discordSentFileHashes : List SentFileHashRec
  quotedMessages : List QuotedMessageRec
  pendingMediaCounts : List PendingMediaRec
  isPaused : Bool
  nodeEnv : String
  pendingMessageIds : List String
  pendingFileHashes : List Int
  sendingLocks : List (String × SendingLock)
  pendingMediaCountsMem : List (String × Int)
  deriving DecidableEq

/-- Fresh database as produced by `initializeTables`: empty tables and the
default `bridge_state` row, with all in-memory caches empty. -/
def DbState.empty : DbState where
  chatMappings := []
  messageLogs := []
  discordSentMessages := []
  discordSentMessageIds := []
  discordSentFileHashes := []
  quotedMessages := []
  pendingMediaCounts := []
  isPaused := false
  nodeEnv := "production"
  pendingMessageIds := []
  pendingFileHashes := []
  sendingLocks := []
  pendingMediaCountsMem := []

/-- JS `Map.prototype.set`: update the binding in place if the key is
present, otherwise append it (JS maps keep insertion order). -/
def mapSet {α : Type} (m : List (String × α)) (k : String) (v : α) :
    List (String × α) :=
  if (m.lookup k).isSome then
    m.map (fun p => if p.1 = k then (p.1, v) else p)
  else
    m ++ [(k, v)]

/-- JS `Set.prototype.add` on a duplicate-free list. -/
def setAdd {α : Type} [BEq α] (s : List α) (v : α) : List α :=
  if s.contains v then s else s ++ [v]

/-- database.js `incrementPendingMediaCount(waChatId, count, ttlMinutes)`:
bump the in-memory counter and upsert the `pending_media_counts` row.  The
`setTimeout` that later evicts the in-memory increment fires `ttlMinutes`
later, outside this synchronous step, and is not part of the state change
modelled here. -/
def incrementPendingMediaCount (db : DbState) (waChatId : String) (count : Int)
    (ttlMinutes : Nat) (now : Nat) : DbState :=
  let expiresAt := now + ttlMinutes * 60 * 1000
  let currentCount := (db.pendingMediaCountsMem.lookup waChatId).getD 0
  let mem := mapSet db.pendingMediaCountsMem waChatId (currentCount + count)
  if (db.pendingMediaCounts.find? (fun r => r.waChatId == waChatId)).isSome then
    { db with
      pendingMediaCountsMem := mem
      pendingMediaCounts := db.pendingMediaCounts.map (fun r =>
        if r.waChatId = waChatId then
          { r with count := r.count + count, expiresAt := expiresAt }
        else r) }
  else
    { db with
      pendingMediaCountsMem := mem
      pendingMediaCounts := db.pendingMediaCounts ++
        [{ waChatId := waChatId, count := count, createdAt := now,
           expiresAt := expiresAt }] }

/-- database.js `shouldIgnoreOwnMedia(waChatId, senderNumber, botNumber)`:
counter-based echo suppression.  Guard on the sender being the bot, then
consume one unit from the in-memory counter if positive, else from the
`pending_media_counts` row (the SELECT uses `ORDER BY ... LIMIT 1`, but
`wa_chat_id` is UNIQUE so `find?` is faithful).  On a storage error
(`dbFail`) the catch block returns `false`. -/
def shouldIgnoreOwnMedia (db : DbState) (waChatId : String)
    (senderNumber botNumber : Option String) (now : Nat) (dbFail : Bool) :
    Bool × DbState :=
  if !(strTruthy senderNumber) || !(strTruthy botNumber) ||
      !(jsIncludes (senderNumber.getD "") (botNumber.getD "")) then
    (false, db)
  else
    let memoryCount := (db.pendingMediaCountsMem.lookup waChatId).getD 0
    if 0 < memoryCount then
      (true, { db with
        pendingMediaCountsMem :=
          mapSet db.pendingMediaCountsMem waChatId (memoryCount - 1) })
    else if dbFail then
      (false, db)
    else if (db.pendingMediaCounts.find? (fun r =>
        r.waChatId == waChatId && now < r.expiresAt && 0 < r.count)).isSome then
      (true, { db with
        pendingMediaCounts := db.pendingMediaCounts.map (fun r =>
          if r.waChatId = waChatId ∧ now < r.expiresAt then
            { r with count := r.count - 1 }
          else r) })
    else
      (false, db)

/-- database.js `recordDiscordSentMessage(waChatId, messageContent,
ttlMinutes)`: insert a content-hash fingerprint. -/
def recordDiscordSentMessage (db : DbState) (waChatId messageContent : String)
    (ttlMinutes : Nat) (now : Nat) : DbState :=
  let messageHash := createMessageHash messageContent
  let expiresAt := now + ttlMinutes * 60 * 1000
  { db with
    discordSentMessages := db.discordSentMessages ++
      [{ waChatId := waChatId, messageContent := messageContent,
         messageHash := messageHash, expiresAt := expiresAt }] }

/-- database.js `cleanupDiscordSentMessage(waChatId, messageHash)`: DELETE of
every `discord_sent_messages` row with this chat id and hash (the statement
carries no LIMIT and no expiry condition). -/
def cleanupDiscordSentMessage (db : DbState) (waChatId : String)
    (messageHash : Int) : DbState :=
  { db with
    discordSentMessages := db.discordSentMessages.filter (fun r =>
      !(r.waChatId == waChatId && r.messageHash == messageHash)) }

/-- database.js `wasMessageSentFromDiscord(waChatId, messageContent)`: count
unexpired content-hash fingerprints for (chat, hash); on a hit, clean up every
row with that (chat, hash) and report `true`.  On a storage error the catch
block returns `false`. -/
def wasMessageSentFromDiscord (db : DbState) (waChatId messageContent : String)
    (now : Nat) (dbFail : Bool) : Bool × DbState :=
  let messageHash := createMessageHash messageContent
  if dbFail then
    (false, db)
  else if 0 < (db.discordSentMessages.filter (fun r =>
      r.waChatId == waChatId && r.messageHash == messageHash &&
      now < r.expiresAt)).length then
    (true, cleanupDiscordSentMessage db waChatId messageHash)
  else
    (false, db)

/-- database.js `recordDiscordSentMessageId(messageId, ttlMinutes)`: falsy ids
are ignored; otherwise add to the in-memory set and INSERT OR IGNORE into the
UNIQUE-keyed table.  The deferred cache eviction fires after the TTL, outside
this step. -/
def recordDiscordSentMessageId (db : DbState) (messageId : Option String)
    (ttlMinutes : Nat) (now : Nat) : DbState :=
  if !(strTruthy messageId) then db
  else
    let mid := messageId.getD ""
    let expiresAt := now + ttlMinutes * 60 * 1000
    let db := { db with pendingMessageIds := setAdd db.pendingMessageIds mid }
    if db.discordSentMessageIds.any (fun r => r.waMessageId == mid) then db
    else
      { db with
        discordSentMessageIds := db.discordSentMessageIds ++
          [{ waMessageId := mid, expiresAt := expiresAt }] }

/-- database.js `cleanupDiscordSentMessageId(messageId)`. -/
def cleanupDiscordSentMessageId (db : DbState) (mid : String) : DbState :=
  { db with
    discordSentMessageIds := db.discordSentMessageIds.filter (fun r =>
      !(r.waMessageId == mid)) }

/-- database.js `wasMessageIdSentFromDiscord(messageId)`: falsy ids report
`false`; the in-memory set is consulted first (without consuming); then the
table, consuming the row on a hit.  On a storage error the catch block
returns `false`. -/
def wasMessageIdSentFromDiscord (db : DbState) (messageId : Option String)
    (now : Nat) (dbFail : Bool) : Bool × DbState :=
  if !(strTruthy messageId) then (false, db)
  else
    let mid := messageId.getD ""
    if db.pendingMessageIds.contains mid then (true, db)
    else if dbFail then (false, db)
    else if 0 < (db.discordSentMessageIds.filter (fun r =>
        r.waMessageId == mid && now < r.expiresAt)).length then
      (true, cleanupDiscordSentMessageId db mid)
    else
      (false, db)

/-- database.js `recordDiscordSentFileHash(waChatId, filename, fileSize,
ttlMinutes)`: add the timestamped file hash to the in-memory set and insert
the row.  The deferred cache eviction is outside this step. -/
def recordDiscordSentFileHash (db : DbState) (waChatId filename : String)
    (fileSize : Nat) (ttlMinutes : Nat) (now : Nat) : DbState :=
  let fileHash := createFileHash filename fileSize waChatId now
  let expiresAt := now + ttlMinutes * 60 * 1000
  { db with
    pendingFileHashes := setAdd db.pendingFileHashes fileHash
    discordSentFileHashes := db.discordSentFileHashes ++
      [{ waChatId := waChatId, fileHash := fileHash, filename := filename,
         fileSize := fileSize, expiresAt := expiresAt }] }

/-- database.js `cleanupDiscordSentFileHash(fileHash)`. -/
def cleanupDiscordSentFileHash (db : DbState) (fileHash : Int) : DbState :=
  { db with
    discordSentFileHashes := db.discordSentFileHashes.filter (fun r =>
      !(r.fileHash == fileHash)) }

/-- Loop body of `wasFileSentFromDiscord`: scan the in-memory hash set in
insertion order for a hash whose table row matches (chat, filename, size);
this query carries no expiry condition in the source. -/
def wasFileMemScan (db : DbState) (waChatId filename : String)
    (fileSize : Nat) : List Int → Option Int
  | [] => none
  | h :: rest =>
    if 0 < (db.discordSentFileHashes.filter (fun r =>
        r.fileHash == h && r.waChatId == waChatId &&
        r.filename == filename && r.fileSize == fileSize)).length then
      some h
    else
      wasFileMemScan db waChatId filename fileSize rest

/-- database.js `wasFileSentFromDiscord(waChatId, filename, fileSize)`: first
the in-memory scan (consuming the cache entry and its rows on a hit), then an
expiry-filtered table lookup consuming every row with that (chat, filename,
size).  On a storage error the catch block returns `false`: with `dbFail` set
the first SQL statement executed (in the scan if the cache is non-empty,
otherwise the main SELECT) throws. -/
def wasFileSentFromDiscord (db : DbState) (waChatId filename : String)
    (fileSize : Nat) (now : Nat) (dbFail : Bool) : Bool × DbState :=
  if dbFail then (false, db)
  else
    match wasFileMemScan db waChatId filename fileSize db.pendingFileHashes with
    | some h =>
      let db := { db with
        pendingFileHashes := db.pendingFileHashes.filter (fun x => !(x == h)) }
      (true, cleanupDiscordSentFileHash db h)
    | none =>
      if 0 < (db.discordSentFileHashes.filter (fun r =>
          r.waChatId == waChatId && r.filename == filename &&
          r.fileSize == fileSize && now < r.expiresAt)).length then
        (true, { db with
          discordSentFileHashes := db.discordSentFileHashes.filter (fun r =>
            !(r.waChatId == waChatId && r.filename == filename &&
              r.fileSize == fileSize)) })
      else
        (false, db)

/-- database.js `getChatMapping(waChatId)`. -/
def getChatMapping (db : DbState) (waChatId : String) : Option ChatMapping :=
  db.chatMappings.find? (fun m => m.waChatId == waChatId)

/-- database.js `createChatMapping(waChatId, dcChannelId, chatName,
chatType)`: INSERT with column defaults (not muted, zero message count,
timestamps = now). -/
def createChatMapping (db : DbState) (waChatId dcChannelId chatName : String)
    (chatType : String) (now : Nat) : DbState :=
  { db with
    chatMappings := db.chatMappings ++
      [{ waChatId := waChatId, dcChannelId := dcChannelId,
         chatName := chatName, chatType := some chatType, isMuted := false,
         createdAt := now, lastActivity := now, messageCount := 0 }] }

/-- database.js `updateLastActivity(waChatId)`: sets `last_activity` to the
current timestamp and increments `message_count`. -/
def updateLastActivity (db : DbState) (waChatId : String) (now : Nat) :
    DbState :=
  { db with
    chatMappings := db.chatMappings.map (fun m =>
      if m.waChatId = waChatId then
        { m with lastActivity := now, messageCount := m.messageCount + 1 }
      else m) }

/-- database.js `updateChatType(waChatId, chatType)`. -/
def updateChatType (db : DbState) (waChatId chatType : String) : DbState :=
  { db with
    chatMappings := db.chatMappings.map (fun m =>
      if m.waChatId = waChatId then { m with chatType := some chatType }
      else m) }

/-- database.js `getChatMuteState(waChatId)`: `is_muted` of the mapping, or
`false` when no mapping exists. -/
def getChatMuteState (db : DbState) (waChatId : String) : Bool :=
  match getChatMapping db waChatId with
  | some m => m.isMuted
  | none => false

/-- database.js `lockChatForSending(chatId)`: create the lock entry if absent,
then set `locked`. -/
def lockChatForSending (db : DbState) (chatId : String) : DbState :=
  let locks :=
    if (db.sendingLocks.lookup chatId).isSome then db.sendingLocks
    else db.sendingLocks ++ [(chatId, { locked := false, queue := [] })]
  { db with
    sendingLocks := locks.map (fun p =>
      if p.1 = chatId then (p.1, { p.2 with locked := true }) else p) }

/-- database.js `isChatLockedForSending(chatId)`. -/
def isChatLockedForSending (db : DbState) (chatId : String) : Bool :=
  match db.sendingLocks.lookup chatId with
  | some l => l.locked
  | none => false

/-- database.js `queueMessageForProcessing(chatId, message, handler)`: create
the lock entry if absent and push the message onto its queue.  The handler is
always the bound `handleMessage`, so only the message is stored. -/
def queueMessageForProcessing (db : DbState) (chatId : String)
    (message : WaMessage) : DbState :=
  let locks :=
    if (db.sendingLocks.lookup chatId).isSome then db.sendingLocks
    else db.sendingLocks ++ [(chatId, { locked := false, queue := [] })]
  { db with
    sendingLocks := locks.map (fun p =>
      if p.1 = chatId then (p.1, { p.2 with queue := p.2.queue ++ [message] })
      else p) }

/-- Result of a WhatsApp adapter send call as observed by the `finally`
blocks: a string message id, a bare `true` (no id), or a throw (the local
`result` variable is still `null`). -/
inductive SendResult where
  | msgId (id : String)
  | okTrue
  | failed
  deriving DecidableEq

/-- Optional `{ filename, fileSize }` passed to the unlock by
`sendDocument`. -/
structure FileInfo where
  filename : String
  fileSize : Nat
  deriving DecidableEq

/-- Fingerprint-recording step at the top of `unlockChatAfterSending`: a
truthy string result records the message id, `result === true` with file info
records the file identity, anything else records nothing. -/
def unlockRecordFingerprint (db : DbState) (chatId : String)
    (result : SendResult) (fileInfo : Option FileInfo) (now : Nat) : DbState :=
  match result, fileInfo with
  | .msgId mid, _ =>
    if mid.isEmpty then db
    else recordDiscordSentMessageId db (some mid) 10 now
  | .okTrue, some fi =>
    recordDiscordSentFileHash db chatId fi.filename fi.fileSize 10 now
  | _, _ => db

/-- database.js `unlockChatAfterSending(chatId, result, fileInfo)`: if no lock
entry exists, return unchanged.  Otherwise record the id fingerprint (truthy
string result) or the file-identity fingerprint (`result === true` with file
info), clear `locked`, and drain the queue.  The drained messages are handed
to their handler in queue order by a deferred callback; they are returned
here as a list in that order. -/
def unlockChatAfterSending (db : DbState) (chatId : String)
    (result : SendResult) (fileInfo : Option FileInfo) (now : Nat) :
    DbState × List WaMessage :=
  match db.sendingLocks.lookup chatId with
  | none => (db, [])
  | some lock =>
    let db := unlockRecordFingerprint db chatId result fileInfo now
    let db := { db with
      sendingLocks := db.sendingLocks.map (fun p =>
        if p.1 = chatId then (p.1, { locked := false, queue := [] }) else p) }
    (db, lock.queue)

/-- database.js `getAllMappings()`: every mapping, ordered by `last_activity`
descending. -/
def getAllMappings (db : DbState) : List ChatMapping :=
  db.chatMappings.mergeSort (fun a b => decide (b.lastActivity ≤ a.lastActivity))

/-- database.js `purgeAllData()`: read the channel ids of all mappings, then
DELETE every row of the seven data tables, reset `is_paused`, clear the four
in-memory caches, and return the channel ids. -/
def purgeAllData (db : DbState) : List String × DbState :=
  let mappings := getAllMappings db
  let db := { db with
    chatMappings := []
    messageLogs := []
    discordSentMessages := []
    discordSentMessageIds := []
    discordSentFileHashes := []
    quotedMessages := []
    pendingMediaCounts := []
    isPaused := false
    pendingMessageIds := []
    pendingFileHashes := []
    sendingLocks := []
    pendingMediaCountsMem := [] }
  (mappings.map (fun m => m.dcChannelId), db)

/-- whatsapp-manager.js `getChatType(chatId)`: only `@c.us` contacts and
`@g.us` groups are bridged. -/
def getChatType (chatId : String) : Option String :=
  if jsEndsWith chatId "@c.us" then some "contact"
  else if jsEndsWith chatId "@g.us" then some "group"
  else none

/-- Message kinds other than `chat`/`text` take the media path in
`handleOwnMessage`. -/
def isMediaType (t : String) : Bool :=
  !(t == "chat" || t == "text")

/-- UTF-16 code units of a string (for the normalized command
comparisons). -/
def codesOf (s : String) : List Nat :=
  s.data.map Char.toNat

/-- JS `body.trim().toLowerCase()` as a list of code units. -/
def normalizedCodes (b : String) : List Nat :=
  (listTrim b.data).map (fun c => lowerCode c.toNat)

/-- Normalized-body equality test `body?.trim().toLowerCase() === cmd` used by
the command dispatch (`undefined === cmd` is false when the body is
absent). -/
def bodyIsCmd (body : Option String) (cmd : String) : Bool :=
  match body with
  | some b => normalizedCodes b == codesOf cmd
  | none => false

/-- whatsapp-manager.js `isCommand` guard in `handleMessage`: a truthy body
that normalizes to one of the four prefixed commands. -/
def isCommandBody (pfx : String) (body : Option String) : Bool :=
  strTruthy body &&
    (bodyIsCmd body (pfx ++ "stats") || bodyIsCmd body (pfx ++ "pause") ||
     bodyIsCmd body (pfx ++ "start") || bodyIsCmd body (pfx ++ "help"))

/-- Configuration of the WhatsApp router: the bot's own number, the command
marker (`this.commandPrefix`), and the chat authorized for the stats command
(`this.statsChatId`). -/
structure RouterConfig where
  botNumber : String
  pfx : String
  statsChatId : Option String
  deriving DecidableEq

/-- whatsapp-manager.js `isMe` in `handleMessage`:
`from.includes(botNumber) || (author && author.includes(botNumber))`. -/
def routeIsMe (cfg : RouterConfig) (msg : WaMessage) : Bool :=
  jsIncludes msg.fromId cfg.botNumber ||
    (strTruthy msg.author && jsIncludes (msg.author.getD "") cfg.botNumber)

/-- Chat id resolution for self-authored events:
`to || message.chatId || from`. -/
def ownChatId (msg : WaMessage) : String :=
  jsOrStr msg.toId (jsOrStr msg.chatId msg.fromId)

/-- Chat id used by `handleMessage`: `isMe ? to || chatId || from : from`. -/
def routeChatId (cfg : RouterConfig) (msg : WaMessage) : String :=
  if routeIsMe cfg msg then ownChatId msg else msg.fromId

/-- Decision taken by `handleOwnMessage` for a self-authored inbound event:
which echo-suppression check fired, or forwarding.  `suppressedByFile` only
occurs in the spec-order model below. -/
inductive OwnDecision where
  | suppressedById
  | suppressedByFile
  | suppressedByCounter
  | suppressedByContent
  | forwarded
  deriving DecidableEq

/-- whatsapp-manager.js `handleOwnMessage(message)`: resolve the chat id,
then try the message-id fingerprint, then (for media types) the pending-media
counter, then the content hash; forward when nothing matches.  The function
returns the decision together with the ledger state after the consuming
lookups; the forwarding leg itself (channel resolution, rendering, message
logging) is outside the suppression decision modelled here. -/
def handleOwnMessage (db : DbState) (msg : WaMessage) (botNumber : String)
    (now : Nat) (dbFail : Bool) : OwnDecision × DbState :=
  let chatId := ownChatId msg
  let idStep :=
    if strTruthy msg.id then wasMessageIdSentFromDiscord db msg.id now dbFail
    else (false, db)
  if idStep.1 then (.suppressedById, idStep.2)
  else
    let counterStep :=
      if isMediaType msg.mtype then
        shouldIgnoreOwnMedia idStep.2 chatId (some msg.fromId) (some botNumber)
          now dbFail
      else (false, idStep.2)
    if counterStep.1 then (.suppressedByCounter, counterStep.2)
    else
      let contentStep :=
        wasMessageSentFromDiscord counterStep.2 chatId (jsOrStr msg.body "")
          now dbFail
      if contentStep.1 then (.suppressedByContent, contentStep.2)
      else (.forwarded, contentStep.2)

/-- The four fingerprint kinds of the Echo Suppression Ledger. -/
inductive CheckKind where
  | byId
  | byFile
  | byContent
  | byCounter
  deriving DecidableEq

/-- Run a single echo-suppression lookup of the given kind for a
self-authored event, exactly as `handleOwnMessage` would invoke it. -/
def runCheck (msg : WaMessage) (botNumber : String) (now : Nat)
    (dbFail : Bool) (db : DbState) : CheckKind → Bool × DbState
  | .byId =>
    if strTruthy msg.id then wasMessageIdSentFromDiscord db msg.id now dbFail
    else (false, db)
  | .byFile =>
    wasFileSentFromDiscord db (ownChatId msg) (jsOrStr msg.filename "")
      ((msg.size).getD 0) now dbFail
  | .byContent =>
    wasMessageSentFromDiscord db (ownChatId msg) (jsOrStr msg.body "") now
      dbFail
  | .byCounter =>
    shouldIgnoreOwnMedia db (ownChatId msg) (some msg.fromId)
      (some botNumber) now dbFail

/-- Decision reported when a lookup of the given kind matches. -/
def decisionOf : CheckKind → OwnDecision
  | .byId => .suppressedById
  | .byFile => .suppressedByFile
  | .byContent => .suppressedByContent
  | .byCounter => .suppressedByCounter

/-- Attempt a list of echo-suppression lookups in order, threading the ledger
state, stopping at the first match; forward when none matches. -/
def firstMatch (msg : WaMessage) (botNumber : String) (now : Nat)
    (dbFail : Bool) : DbState → List CheckKind → OwnDecision × DbState
  | db, [] => (.forwarded, db)
  | db, k :: rest =>
    let step := runCheck msg botNumber now dbFail db k
    if step.1 then (decisionOf k, step.2)
    else firstMatch msg botNumber now dbFail step.2 rest

/-- Lookup order the claim states: id, then file-identity, then content-hash,
then counter (the media-only kinds apply to media events). -/
def specCheckOrder (msg : WaMessage) : List CheckKind :=
  [CheckKind.byId] ++
    (if isMediaType msg.mtype then [CheckKind.byFile] else []) ++
    [CheckKind.byContent] ++
    (if isMediaType msg.mtype then [CheckKind.byCounter] else [])

/-- Modelled from the spec: self-authored-event suppression attempting the
lookups in the reliability order id, file-identity, content-hash, counter and
stopping at the first match (the order asserted by the spec and the claim),
for comparison with the source's `handleOwnMessage`. -/
def handleOwnMessageSpecOrder (db : DbState) (msg : WaMessage)
    (botNumber : String) (now : Nat) (dbFail : Bool) : OwnDecision × DbState :=
  firstMatch msg botNumber now dbFail db (specCheckOrder msg)

/-- Lookup order actually taken by `handleOwnMessage`: id, then (for media
events) the counter, then the content hash; the file-identity lookup is never
attempted. -/
def codeCheckOrder (msg : WaMessage) : List CheckKind :=
  [CheckKind.byId] ++
    (if isMediaType msg.mtype then [CheckKind.byCounter] else []) ++
    [CheckKind.byContent]

/-- Classification outcome of `handleMessage` for one inbound event.  The
forwarding legs (channel resolution, media pipeline, rendering, logging) and
the command replies are downstream of this classification and outside the
state modelled here. -/
inductive RouteOutcome where
  | droppedPaused
  | droppedAlbum
  | droppedUnsupportedChat
  | droppedMuted
  | queuedWhileLocked
  | statsCommand
  | helpCommand
  | ownMessage (d : OwnDecision)
  | forwardedToDiscord
  deriving DecidableEq

/-- whatsapp-manager.js `handleMessage(message)`: pause gate (commands
exempt), album skip, chat-type gate, mute gate, lock gate (queueing the
event), the stats/help command dispatch, then the own-message path or the
forward path. -/
def handleMessage (db : DbState) (cfg : RouterConfig) (msg : WaMessage)
    (now : Nat) (dbFail : Bool) : RouteOutcome × DbState :=
  if db.isPaused && !(isCommandBody cfg.pfx msg.body) then
    (.droppedPaused, db)
  else if msg.mtype == "album" then
    (.droppedAlbum, db)
  else if (getChatType msg.fromId).isNone then
    (.droppedUnsupportedChat, db)
  else
    let chatId := routeChatId cfg msg
    if getChatMuteState db chatId then
      (.droppedMuted, db)
    else if isChatLockedForSending db chatId then
      (.queuedWhileLocked, queueMessageForProcessing db chatId msg)
    else if bodyIsCmd msg.body (cfg.pfx ++ "stats") &&
        strTruthy cfg.statsChatId &&
        msg.fromId == (cfg.statsChatId.getD "") then
      (.statsCommand, db)
    else if bodyIsCmd msg.body (cfg.pfx ++ "help") && !(routeIsMe cfg msg) then
      (.helpCommand, db)
    else if routeIsMe cfg msg then
      let own := handleOwnMessage db msg cfg.botNumber now dbFail
      (.ownMessage own.1, own.2)
    else
      (.forwardedToDiscord, db)

/-- whatsapp-manager.js `sendMessage(chatId, message)`: lock the chat, call
`client.sendText` (its observed outcome is the `outcome` parameter; on a
throw the local `result` stays null), and unlock in the `finally` block.  The
unlock runs in a deferred callback shortly after; it is the next state change
on this chat and is modelled as the following step. -/
def sendMessage (db : DbState) (chatId : String) (outcome : SendResult)
    (now : Nat) : DbState × List WaMessage :=
  unlockChatAfterSending (lockChatForSending db chatId) chatId outcome none now

/-- whatsapp-manager.js `sendImage`: same lock/send/finally-unlock shape as
`sendMessage`, around `client.sendImage`. -/
def sendImage (db : DbState) (chatId : String) (outcome : SendResult)
    (now : Nat) : DbState × List WaMessage :=
  unlockChatAfterSending (lockChatForSending db chatId) chatId outcome none now

/-- whatsapp-manager.js `sendVideo`: same shape, around `client.sendVideo`. -/
def sendVideo (db : DbState) (chatId : String) (outcome : SendResult)
    (now : Nat) : DbState × List WaMessage :=
  unlockChatAfterSending (lockChatForSending db chatId) chatId outcome none now

/-- whatsapp-manager.js `sendAudio`: same shape, around `client.sendAudio`. -/
def sendAudio (db : DbState) (chatId : String) (outcome : SendResult)
    (now : Nat) : DbState × List WaMessage :=
  unlockChatAfterSending (lockChatForSending db chatId) chatId outcome none now

/-- whatsapp-manager.js `sendDocument`: same shape around `client.sendFile`,
but the `finally` unlock passes the file info so a boolean success can record
a file-identity fingerprint. -/
def sendDocument (db : DbState) (chatId filename : String) (fileSize : Nat)
    (outcome : SendResult) (now : Nat) : DbState × List WaMessage :=
  unlockChatAfterSending (lockChatForSending db chatId) chatId outcome
    (some { filename := filename, fileSize := fileSize }) now

/-- whatsapp-manager.js `sendSticker`: same shape around
`client.sendImageAsSticker` (its catch returns `false` instead of rethrowing,
which does not change the lock state). -/
def sendSticker (db : DbState) (chatId : String) (outcome : SendResult)
    (now : Nat) : DbState × List WaMessage :=
  unlockChatAfterSending (lockChatForSending db chatId) chatId outcome none now

/-- External Discord side as far as `getOrCreateChannel` observes it: the set
of channel ids that currently exist, and a source of fresh ids for
`guild.channels.create`. -/
structure DiscordWorld where
  channels : List String
  nextChannelNum : Nat
  deriving DecidableEq

/-- Identifier assigned to the next created channel. -/
def freshChannelId (w : DiscordWorld) : String :=
  "dc-" ++ toString w.nextChannelNum

/-- Creation branch of discord-manager.js `getOrCreateChannel`: create the
channel in the guild, then UPDATE the existing mapping in place or INSERT a
fresh one.  The guild/category fetches, the channel-name sanitization and the
initial channel message are adapter-side effects that do not touch the
registry or the returned id. -/
def gocCreateChannel (db : DbState) (w : DiscordWorld)
    (existing : Option ChatMapping) (chatId chatName chatType : String)
    (now : Nat) : String × DbState × DiscordWorld :=
  let cid := freshChannelId w
  let w := { channels := w.channels ++ [cid],
             nextChannelNum := w.nextChannelNum + 1 }
  let db :=
    match existing with
    | some _ =>
      { db with
        chatMappings := db.chatMappings.map (fun m =>
          if m.waChatId = chatId then
            { m with dcChannelId := cid, chatName := chatName,
                     chatType := some chatType }
          else m) }
    | none => createChatMapping db chatId cid chatName chatType now
  (cid, db, w)

/-- discord-manager.js `getOrCreateChannel(chatId, chatName, db, chatType)`:
if a mapping exists, backfill a falsy `chat_type`, and when its channel still
exists return it after `updateLastActivity`; otherwise (externally deleted
channel, or no mapping) create a channel and upsert the mapping. -/
def getOrCreateChannel (db : DbState) (w : DiscordWorld)
    (chatId chatName chatType : String) (now : Nat) :
    String × DbState × DiscordWorld :=
  let existing := getChatMapping db chatId
  let db :=
    match existing with
    | some m => if strTruthy m.chatType then db else updateChatType db chatId chatType
    | none => db
  match existing with
  | some m =>
    if w.channels.contains m.dcChannelId then
      (m.dcChannelId, updateLastActivity db chatId now, w)
    else
      gocCreateChannel db w existing chatId chatName chatType now
  | none => gocCreateChannel db w existing chatId chatName chatType now

/-- Queue of the sending lock for a chat (empty when no lock entry
exists). -/
def lockQueue (db : DbState) (chatId : String) : List WaMessage :=
  match db.sendingLocks.lookup chatId with
  | some l => l.queue
  | none => []

/-- Concrete self-authored media event: sent by the bot's own number to chat
`777@c.us`, an image named `a.pdf` of 5 bytes, with a fresh message id. -/
def c1Msg : WaMessage :=
  { id := some "MID1", body := some "", mtype := "image",
    fromId := "49111@c.us", toId := some "777@c.us", author := none,
    chatId := none, filename := some "a.pdf", size := some 5 }

/-- Unexpired file-identity fingerprint matching `c1Msg`. -/
def c1FileRec : SentFileHashRec :=
  { waChatId := "777@c.us", fileHash := 42, filename := "a.pdf",
    fileSize := 5, expiresAt := 600000 }

/-- Ledger state holding only the file-identity fingerprint for `c1Msg`. -/
def c1Db : DbState :=
  { DbState.empty with discordSentFileHashes := [c1FileRec] }

/-- Ledger state after two sends of the text `hello` to chat `777@c.us`, each
recording a content fingerprint (both share the same hash). -/
def c2State : DbState :=
  recordDiscordSentMessage
    (recordDiscordSentMessage DbState.empty "777@c.us" "hello" 5 0)
    "777@c.us" "hello" 5 0

/-- State after `incrementPendingMediaCount(chat, 3)` on a fresh database at
time 0: the in-memory counter and the table row both hold 3. -/
def c3S0 : DbState := incrementPendingMediaCount DbState.empty "777@c.us" 3 10 0

/-- One self-authored media lookup within the TTL: the bot's number
`49111` appears in the sender `49111@c.us`. -/
def c3Step (db : DbState) : Bool × DbState :=
  shouldIgnoreOwnMedia db "777@c.us" (some "49111@c.us") (some "49111") 1000 false

/-- Muted mapping for chat `555@c.us`. -/
def c4Mapping : ChatMapping :=
  { waChatId := "555@c.us", dcChannelId := "dc-0", chatName := "S",
    chatType := some "contact", isMuted := true, createdAt := 0,
    lastActivity := 0, messageCount := 0 }

/-- Database whose only mapping (chat `555@c.us`) is muted; not paused. -/
def c4Db : DbState :=
  { DbState.empty with chatMappings := [c4Mapping] }

/-- Router configuration authorizing chat `555@c.us` for the stats command,
with the default `!` marker. -/
def c4Cfg : RouterConfig :=
  { botNumber := "49111", pfx := "!", statsChatId := some "555@c.us" }

/-- Administrative stats command arriving from the authorized chat
`555@c.us` (a third-party sender, not the bot). -/
def c4Msg : WaMessage :=
  { id := some "m1", body := some "!stats", mtype := "chat",
    fromId := "555@c.us", toId := none, author := none, chatId := none,
    filename := none, size := none }

/-- Discord side with no channels yet and fresh ids starting at 0. -/
def c9W0 : DiscordWorld := { channels := [], nextChannelNum := 0 }

/-- First channel-resolution call for the unseen chat `777@c.us`. -/
def c9R1 : String × DbState × DiscordWorld :=
  getOrCreateChannel DbState.empty c9W0 "777@c.us" "Bob" "contact" 10

/-- Second channel-resolution call for the same chat, no purge in between,
channel still existing. -/
def c9R2 : String × DbState × DiscordWorld :=
  getOrCreateChannel c9R1.2.1 c9R1.2.2 "777@c.us" "Bob" "contact" 20

/-- Plain inbound third-party text used for the lock-queue witness. -/
def c5Msg : WaMessage :=
  { id := some "m2", body := some "hi", mtype := "chat",
    fromId := "555@c.us", toId := none, author := none, chatId := none,
    filename := none, size := none }

/-- Fresh database with chat `555@c.us` locked for sending. -/
def c5Db : DbState := lockChatForSending DbState.empty "555@c.us"

/-- Two successive channel resolutions for the same conversation (first at
`t1`, then at `t2`), returning both results. -/
def gocTwice (db : DbState) (w : DiscordWorld)
    (chatId chatName chatType : String) (t1 t2 : Nat) :
    (String × DbState × DiscordWorld) × (String × DbState × DiscordWorld) :=
  let r1 := getOrCreateChannel db w chatId chatName chatType t1
  (r1, getOrCreateChannel r1.2.1 r1.2.2 chatId chatName chatType t2)

set_option maxRecDepth 100000

/-- Updating the entry for key `k` through a conditional map rewrites exactly
the binding of `k` as seen through `lookup`. -/
theorem lookup_map_if {β : Type} (l : List (String × β)) (k : String)
    (f : β → β) :
    (l.map (fun p => if p.1 = k then (p.1, f p.2) else p)).lookup k
      = (l.lookup k).map f := by
  induction l with
  | nil => rfl
  | cons p rest ih =>
    obtain ⟨a, b⟩ := p
    simp only [List.map_cons]
    by_cases h : a = k
    · subst h
      have h1 : (if (a, b).1 = a then ((a, b).1, f (a, b).2) else (a, b))
          = (a, f b) := by simp
      rw [h1]
      simp [List.lookup]
    · have h1 : (if (a, b).1 = k then ((a, b).1, f (a, b).2) else (a, b))
          = (a, b) := by simp [h]
      rw [h1]
      have hb : (k == a) = false := beq_eq_false_iff_ne.mpr (Ne.symm h)
      simp only [List.lookup, hb, ih]

/-- Appending a fresh binding is visible through `lookup` when the key was
absent. -/
theorem lookup_append_one {β : Type} (l : List (String × β)) (k : String)
    (v : β) (h : l.lookup k = none) : (l ++ [(k, v)]).lookup k = some v := by
  induction l with
  | nil => simp [List.lookup]
  | cons p rest ih =>
    obtain ⟨a, b⟩ := p
    by_cases hk : k = a
    · subst hk
      simp [List.lookup] at h
    · have hb : (k == a) = false := beq_eq_false_iff_ne.mpr hk
      have h' : rest.lookup k = none := by
        simpa only [List.lookup, hb] using h
      simpa only [List.cons_append, List.lookup, hb] using ih h'

/-- Recording a message-id fingerprint does not touch the sending locks. -/
theorem recordDiscordSentMessageId_sendingLocks (db : DbState)
    (mid : Option String) (t now : Nat) :
    (recordDiscordSentMessageId db mid t now).sendingLocks = db.sendingLocks := by
  simp only [recordDiscordSentMessageId]
  repeat' split
  all_goals rfl

/-- Recording a file-identity fingerprint does not touch the sending locks. -/
theorem recordDiscordSentFileHash_sendingLocks (db : DbState)
    (chat fn : String) (sz t now : Nat) :
    (recordDiscordSentFileHash db chat fn sz t now).sendingLocks
      = db.sendingLocks := rfl

/-- After `lockChatForSending`, the lock entry of the chat exists, is locked,
and keeps the previous queue. -/
theorem lockChatForSending_lookup (db : DbState) (chat : String) :
    (lockChatForSending db chat).sendingLocks.lookup chat
      = some { locked := true, queue := lockQueue db chat } := by
  unfold lockChatForSending lockQueue
  cases h : db.sendingLocks.lookup chat with
  | some l =>
    rw [if_pos (by simp [h])]
    have hm := lookup_map_if db.sendingLocks chat
      (fun x => { x with locked := true })
    rw [h] at hm
    simp only [h]
    exact hm
  | none =>
    rw [if_neg (by simp [h])]
    have hm := lookup_map_if
      (db.sendingLocks ++ [(chat, ({ locked := false, queue := [] } : SendingLock))])
      chat (fun x => { x with locked := true })
    rw [lookup_append_one db.sendingLocks chat _ h] at hm
    simp only [h]
    exact hm

/-- The fingerprint-recording half of the unlock does not touch the sending
locks. -/
theorem unlockRecordFingerprint_sendingLocks (db : DbState) (chat : String)
    (res : SendResult) (fi : Option FileInfo) (now : Nat) :
    (unlockRecordFingerprint db chat res fi now).sendingLocks
      = db.sendingLocks := by
  unfold unlockRecordFingerprint
  rcases res with mid | _ | _
  · rcases fi with _ | f
    all_goals
      show (if mid.isEmpty = true then db
        else recordDiscordSentMessageId db (some mid) 10 now).sendingLocks
          = db.sendingLocks
    all_goals
      split
    all_goals
      first
        | rfl
        | exact recordDiscordSentMessageId_sendingLocks _ _ _ _
  · rcases fi with _ | f
    · rfl
    · exact recordDiscordSentFileHash_sendingLocks _ _ _ _ _ _
  · rcases fi with _ | f <;> rfl

/-- After `unlockChatAfterSending` on a chat whose lock entry exists, the
entry is unlocked and its queue is empty. -/
theorem unlockChatAfterSending_lookup (db : DbState) (chat : String)
    (res : SendResult) (fi : Option FileInfo) (now : Nat) (l : SendingLock)
    (h : db.sendingLocks.lookup chat = some l) :
    ((unlockChatAfterSending db chat res fi now).1).sendingLocks.lookup chat
      = some { locked := false, queue := [] } := by
  have hm := lookup_map_if db.sendingLocks chat
    (fun _ => ({ locked := false, queue := [] } : SendingLock))
  rw [h] at hm
  unfold unlockChatAfterSending
  simp only [h, unlockRecordFingerprint_sendingLocks]
  exact hm

/-- Queueing a message appends it at the tail of the chat's deferral queue
(creating the entry when absent). -/
theorem queueMessageForProcessing_lockQueue (db : DbState) (chat : String)
    (msg : WaMessage) :
    lockQueue (queueMessageForProcessing db chat msg) chat
      = lockQueue db chat ++ [msg] := by
  unfold queueMessageForProcessing lockQueue
  cases h : db.sendingLocks.lookup chat with
  | some l =>
    rw [if_pos (by simp [h])]
    have hm := lookup_map_if db.sendingLocks chat
      (fun x => { x with queue := x.queue ++ [msg] })
    rw [h] at hm
    simp only [h, hm]
    rfl
  | none =>
    rw [if_neg (by simp [h])]
    have hm := lookup_map_if
      (db.sendingLocks ++ [(chat, ({ locked := false, queue := [] } : SendingLock))])
      chat (fun x => { x with queue := x.queue ++ [msg] })
    rw [lookup_append_one db.sendingLocks chat _ h] at hm
    simp only [h, hm]
    rfl

/-- Unlocking drains exactly the queued messages, in queue order, and leaves
the queue empty. -/
theorem unlockChatAfterSending_drain (db : DbState) (chat : String)
    (res : SendResult) (fi : Option FileInfo) (now : Nat) :
    (unlockChatAfterSending db chat res fi now).2 = lockQueue db chat ∧
    lockQueue (unlockChatAfterSending db chat res fi now).1 chat = [] := by
  cases h : db.sendingLocks.lookup chat with
  | none =>
    constructor
    · unfold unlockChatAfterSending lockQueue
      simp [h]
    · unfold unlockChatAfterSending lockQueue
      simp [h]
  | some l =>
    constructor
    · unfold unlockChatAfterSending lockQueue
      simp [h]
    · unfold lockQueue
      rw [unlockChatAfterSending_lookup db chat res fi now l h]

/-- The message-id lookup never touches the file-identity fingerprint
table. -/
theorem wasMessageIdSentFromDiscord_fileHashes (db : DbState)
    (mid : Option String) (now : Nat) (df : Bool) :
    ((wasMessageIdSentFromDiscord db mid now df).2).discordSentFileHashes
      = db.discordSentFileHashes := by
  simp only [wasMessageIdSentFromDiscord, cleanupDiscordSentMessageId]
  repeat' split
  all_goals rfl

/-- The counter lookup never touches the file-identity fingerprint table. -/
theorem shouldIgnoreOwnMedia_fileHashes (db : DbState) (chat : String)
    (sender bot : Option String) (now : Nat) (df : Bool) :
    ((shouldIgnoreOwnMedia db chat sender bot now df).2).discordSentFileHashes
      = db.discordSentFileHashes := by
  simp only [shouldIgnoreOwnMedia]
  repeat' split
  all_goals rfl

/-- The content-hash lookup never touches the file-identity fingerprint
table. -/
theorem wasMessageSentFromDiscord_fileHashes (db : DbState)
    (chat content : String) (now : Nat) (df : Bool) :
    ((wasMessageSentFromDiscord db chat content now df).2).discordSentFileHashes
      = db.discordSentFileHashes := by
  simp only [wasMessageSentFromDiscord, cleanupDiscordSentMessage]
  repeat' split
  all_goals rfl

/-- The own-message handler never consumes a file-identity fingerprint. -/
theorem handleOwnMessage_fileHashes (db : DbState) (msg : WaMessage)
    (bot : String) (now : Nat) (df : Bool) :
    ((handleOwnMessage db msg bot now df).2).discordSentFileHashes
      = db.discordSentFileHashes := by
  simp only [handleOwnMessage]
  repeat' split
  all_goals
    simp only [wasMessageIdSentFromDiscord_fileHashes,
      shouldIgnoreOwnMedia_fileHashes, wasMessageSentFromDiscord_fileHashes]

/-- C1, counterexample.  The claim says the lookups run in the reliability
order id, file-identity, content-hash, counter and stop at the first match.
On a self-authored media event whose only matching fingerprint is the
file-identity record, the source's `handleOwnMessage` forwards the event,
while the spec-order model suppresses it by file identity: the file-identity
lookup is never attempted on the inbound path, so the stated order is not the
code's order. -/
theorem C1_counterexample :
    (handleOwnMessage c1Db c1Msg "49111" 1000 false).1
        = OwnDecision.forwarded ∧
      (handleOwnMessageSpecOrder c1Db c1Msg "49111" 1000 false).1
        = OwnDecision.suppressedByFile := by
  constructor
  · decide
  · decide

/-- C1, amended.  For every inbound event authored by the bridge's own
account, the echo-suppression lookups are attempted in the order id, then
(for media events) counter, then content-hash, stopping at the first kind
that matches; the file-identity lookup is not attempted, and the
file-identity fingerprint table is left untouched. -/
theorem C1_amended_order (db : DbState) (msg : WaMessage) (bot : String)
    (now : Nat) (df : Bool) :
    handleOwnMessage db msg bot now df
        = firstMatch msg bot now df db (codeCheckOrder msg) ∧
      ((handleOwnMessage db msg bot now df).2).discordSentFileHashes
        = db.discordSentFileHashes := by
  refine ⟨?_, handleOwnMessage_fileHashes db msg bot now df⟩
  cases hmt : isMediaType msg.mtype
  · simp [handleOwnMessage, firstMatch, runCheck, decisionOf, codeCheckOrder,
      hmt]
  · simp [handleOwnMessage, firstMatch, runCheck, decisionOf, codeCheckOrder,
      hmt]

/-- C2, counterexample.  Two sends of the same text to the same chat record
two content fingerprints.  The claim says the first matching lookup removes
exactly one record and a second identical echo is still suppressed; but the
cleanup DELETE has no LIMIT, so the first lookup consumes both records and
the second identical lookup returns false. -/
theorem C2_counterexample :
    (wasMessageSentFromDiscord c2State "777@c.us" "hello" 1000 false).1
        = true ∧
      ((wasMessageSentFromDiscord c2State "777@c.us" "hello" 1000
          false).2).discordSentMessages = [] ∧
      (wasMessageSentFromDiscord
          ((wasMessageSentFromDiscord c2State "777@c.us" "hello" 1000
            false).2) "777@c.us" "hello" 2000 false).1 = false := by
  refine ⟨by decide, by decide, by decide⟩

/-- C2, amended.  A matching content lookup within the TTL returns true and
removes every record of that conversation with the same content hash
(including expired ones); consequently a second identical lookup afterwards
returns false.  When only one record exists, this is exactly the claimed
consume-once behaviour; when two identical sends were recorded, the first
echo consumes both. -/
theorem C2_amended_consume_all (db : DbState) (chat content : String)
    (now now2 : Nat)
    (h : 0 < (db.discordSentMessages.filter (fun r =>
        r.waChatId == chat && r.messageHash == createMessageHash content &&
        now < r.expiresAt)).length) :
    (wasMessageSentFromDiscord db chat content now false).1 = true ∧
    ((wasMessageSentFromDiscord db chat content now false).2).discordSentMessages
      = db.discordSentMessages.filter (fun r =>
          !(r.waChatId == chat && r.messageHash == createMessageHash content)) ∧
    (wasMessageSentFromDiscord
        ((wasMessageSentFromDiscord db chat content now false).2)
        chat content now2 false).1 = false := by
  have hstate : (wasMessageSentFromDiscord db chat content now false)
      = (true, cleanupDiscordSentMessage db chat (createMessageHash content)) := by
    simp only [wasMessageSentFromDiscord]
    rw [if_neg (by simp), if_pos h]
  refine ⟨by rw [hstate], by rw [hstate]; rfl, ?_⟩
  rw [hstate]
  have hq : ((cleanupDiscordSentMessage db chat
      (createMessageHash content)).discordSentMessages.filter (fun r =>
        r.waChatId == chat && r.messageHash == createMessageHash content &&
        now2 < r.expiresAt)) = [] := by
    refine List.filter_eq_nil_iff.mpr (fun r hr => ?_)
    have hmem : (!(r.waChatId == chat &&
        r.messageHash == createMessageHash content)) = true :=
      (List.mem_filter.mp hr).2
    intro hcon
    simp only [Bool.and_eq_true] at hcon
    simp [hcon.1.1, hcon.1.2] at hmem
  simp only [wasMessageSentFromDiscord, hq]
  simp

/-- Witness for `C2_amended_consume_all` at the two-identical-sends state. -/
theorem C2_amended_consume_all_witness :
    0 < (c2State.discordSentMessages.filter (fun r =>
        r.waChatId == "777@c.us" &&
        r.messageHash == createMessageHash "hello" &&
        1000 < r.expiresAt)).length ∧
    ((wasMessageSentFromDiscord c2State "777@c.us" "hello" 1000 false).1
        = true ∧
      ((wasMessageSentFromDiscord c2State "777@c.us" "hello" 1000
          false).2).discordSentMessages
        = c2State.discordSentMessages.filter (fun r =>
            !(r.waChatId == "777@c.us" &&
              r.messageHash == createMessageHash "hello")) ∧
      (wasMessageSentFromDiscord
          ((wasMessageSentFromDiscord c2State "777@c.us" "hello" 1000
            false).2) "777@c.us" "hello" 2000 false).1 = false) :=
  ⟨by decide,
   C2_amended_consume_all c2State "777@c.us" "hello" 1000 2000 (by decide)⟩

/-- C3, code bug.  After `incrementPendingMediaCount(C, 3)` the spec's
scenario expects exactly the next three self-authored media lookups to return
true and the fourth to return false.  The increment writes the count to both
the in-memory cache and the durable table, but a cache hit decrements only
the cache: the first three lookups drain the cache while the table row keeps
count 3, so the fourth lookup still returns true (the two tiers together
suppress six echoes instead of three). -/
theorem C3_code_bug_fourth_lookup_suppressed :
    (c3Step c3S0).1 = true ∧
      (c3Step (c3Step c3S0).2).1 = true ∧
      (c3Step (c3Step (c3Step c3S0).2).2).1 = true ∧
      ((c3Step (c3Step (c3Step c3S0).2).2).2).pendingMediaCounts.map
        (fun r => r.count) = [3] ∧
      (c3Step (c3Step (c3Step (c3Step c3S0).2).2).2).1 = true := by
  refine ⟨by decide, by decide, by decide, by decide, by decide⟩

/-- C4, counterexample.  The stats command from the authorized chat is
dropped when that chat is muted (the mute gate precedes the command
dispatch); the identical event on the unmuted state is dispatched as the
stats command, showing the drop is caused by the mute alone. -/
theorem C4_counterexample :
    (handleMessage c4Db c4Cfg c4Msg 1000 false).1
        = RouteOutcome.droppedMuted ∧
      (handleMessage
          { c4Db with chatMappings := [{ c4Mapping with isMuted := false }] }
          c4Cfg c4Msg 1000 false).1 = RouteOutcome.statsCommand := by
  refine ⟨by decide, by decide⟩

/-- C4, amended.  On a muted conversation every inbound event that reaches
the mute gate is dropped, including the administrative stats/help commands:
the command exemption applies only to the global pause gate, not to mute. -/
theorem C4_amended_mute_drops_commands (db : DbState) (cfg : RouterConfig)
    (msg : WaMessage) (now : Nat) (df : Bool)
    (hp : db.isPaused = false)
    (ha : (msg.mtype == "album") = false)
    (hc : (getChatType msg.fromId).isNone = false)
    (hm : getChatMuteState db (routeChatId cfg msg) = true) :
    handleMessage db cfg msg now df = (RouteOutcome.droppedMuted, db) := by
  unfold handleMessage
  simp [hp, ha, hc, hm]

/-- Witness for `C4_amended_mute_drops_commands` at the muted stats-command
event. -/
theorem C4_amended_mute_drops_commands_witness :
    (c4Db.isPaused = false ∧ (c4Msg.mtype == "album") = false ∧
      (getChatType c4Msg.fromId).isNone = false ∧
      getChatMuteState c4Db (routeChatId c4Cfg c4Msg) = true) ∧
    handleMessage c4Db c4Cfg c4Msg 1000 false
      = (RouteOutcome.droppedMuted, c4Db) :=
  ⟨⟨by decide, by decide, by decide, by decide⟩,
   C4_amended_mute_drops_commands c4Db c4Cfg c4Msg 1000 false
     (by decide) (by decide) (by decide) (by decide)⟩

/-- An event that reaches the lock gate of `handleMessage` while the chat is
locked is classified as queued, and the state change is exactly
`queueMessageForProcessing`. -/
theorem handleMessage_locked (db : DbState) (cfg : RouterConfig)
    (msg : WaMessage) (now : Nat) (df : Bool)
    (hp : db.isPaused = false)
    (ha : (msg.mtype == "album") = false)
    (hc : (getChatType msg.fromId).isNone = false)
    (hm : getChatMuteState db (routeChatId cfg msg) = false)
    (hl : isChatLockedForSending db (routeChatId cfg msg) = true) :
    handleMessage db cfg msg now df
      = (RouteOutcome.queuedWhileLocked,
         queueMessageForProcessing db (routeChatId cfg msg) msg) := by
  unfold handleMessage
  simp [hp, ha, hc, hm, hl]

/-- C5.  While a conversation is locked, every inbound event reaching the
lock gate is appended (not dropped) at the tail of that conversation's
deferral queue, and unlocking returns the queued events in exactly their
arrival order (FIFO) with the queue left empty. -/
theorem C5_lock_defer_fifo (db : DbState) (cfg : RouterConfig)
    (msg : WaMessage) (now : Nat) (df : Bool) (chat : String)
    (res : SendResult) (fi : Option FileInfo)
    (hp : db.isPaused = false)
    (ha : (msg.mtype == "album") = false)
    (hc : (getChatType msg.fromId).isNone = false)
    (hm : getChatMuteState db (routeChatId cfg msg) = false)
    (hl : isChatLockedForSending db (routeChatId cfg msg) = true) :
    (handleMessage db cfg msg now df).1 = RouteOutcome.queuedWhileLocked ∧
    lockQueue (handleMessage db cfg msg now df).2 (routeChatId cfg msg)
      = lockQueue db (routeChatId cfg msg) ++ [msg] ∧
    (unlockChatAfterSending db chat res fi now).2 = lockQueue db chat ∧
    lockQueue (unlockChatAfterSending db chat res fi now).1 chat = [] := by
  have h1 := handleMessage_locked db cfg msg now df hp ha hc hm hl
  have h2 := queueMessageForProcessing_lockQueue db (routeChatId cfg msg) msg
  have h3 := unlockChatAfterSending_drain db chat res fi now
  exact ⟨by rw [h1], by rw [h1]; exact h2, h3.1, h3.2⟩

/-- Witness for `C5_lock_defer_fifo` on a freshly locked chat. -/
theorem C5_lock_defer_fifo_witness :
    (c5Db.isPaused = false ∧ (c5Msg.mtype == "album") = false ∧
      (getChatType c5Msg.fromId).isNone = false ∧
      getChatMuteState c5Db (routeChatId c4Cfg c5Msg) = false ∧
      isChatLockedForSending c5Db (routeChatId c4Cfg c5Msg) = true) ∧
    ((handleMessage c5Db c4Cfg c5Msg 7 false).1
        = RouteOutcome.queuedWhileLocked ∧
      lockQueue (handleMessage c5Db c4Cfg c5Msg 7 false).2
          (routeChatId c4Cfg c5Msg)
        = lockQueue c5Db (routeChatId c4Cfg c5Msg) ++ [c5Msg] ∧
      (unlockChatAfterSending c5Db "555@c.us" SendResult.failed none 7).2
        = lockQueue c5Db "555@c.us" ∧
      lockQueue
        (unlockChatAfterSending c5Db "555@c.us" SendResult.failed none 7).1
        "555@c.us" = []) :=
  ⟨⟨by decide, by decide, by decide, by decide, by decide⟩,
   C5_lock_defer_fifo c5Db c4Cfg c5Msg 7 false "555@c.us" SendResult.failed
     none (by decide) (by decide) (by decide) (by decide) (by decide)⟩

/-- C6.  Every outbound send operation (text, image, video, audio, document,
sticker) takes the per-conversation lock and releases it afterwards for every
possible adapter outcome — a returned id, a bare success, or a throw — so a
conversation never stays locked after a failed send. -/
theorem C6_lock_always_released (db : DbState) (chat fn : String) (sz : Nat)
    (o : SendResult) (now : Nat) :
    isChatLockedForSending (sendMessage db chat o now).1 chat = false ∧
    isChatLockedForSending (sendImage db chat o now).1 chat = false ∧
    isChatLockedForSending (sendVideo db chat o now).1 chat = false ∧
    isChatLockedForSending (sendAudio db chat o now).1 chat = false ∧
    isChatLockedForSending (sendDocument db chat fn sz o now).1 chat = false ∧
    isChatLockedForSending (sendSticker db chat o now).1 chat = false := by
  have key : ∀ fi : Option FileInfo,
      isChatLockedForSending
        (unlockChatAfterSending (lockChatForSending db chat) chat o fi
          now).1 chat = false := by
    intro fi
    have hl := lockChatForSending_lookup db chat
    have hu := unlockChatAfterSending_lookup (lockChatForSending db chat)
      chat o fi now _ hl
    unfold isChatLockedForSending
    rw [hu]
  exact ⟨key none, key none, key none, key none,
    key (some { filename := fn, fileSize := sz }), key none⟩

/-- C7.  When the storage layer throws during an echo-suppression lookup (by
id, by content hash, by file identity, or by counter), the lookup resolves to
false — not an echo — so the inbound message is forwarded rather than
dropped.  For the id and counter lookups the storage is only consulted after
an in-memory miss, so the hypotheses state that miss. -/
theorem C7_lookup_fail_open (db : DbState) (mid : Option String)
    (chat content fn : String) (sz : Nat) (sender bot : Option String)
    (now : Nat)
    (hmem : mid.all (fun s => !(db.pendingMessageIds.contains s)) = true)
    (hcnt : (db.pendingMediaCountsMem.lookup chat).getD 0 ≤ 0) :
    (wasMessageIdSentFromDiscord db mid now true).1 = false ∧
    (wasMessageSentFromDiscord db chat content now true).1 = false ∧
    (wasFileSentFromDiscord db chat fn sz now true).1 = false ∧
    (shouldIgnoreOwnMedia db chat sender bot now true).1 = false := by
  refine ⟨?_, by simp [wasMessageSentFromDiscord],
    by simp [wasFileSentFromDiscord], ?_⟩
  · cases mid with
    | none => rfl
    | some s =>
      simp only [Option.all_some, Bool.not_eq_eq_eq_not, Bool.not_true] at hmem
      unfold wasMessageIdSentFromDiscord
      split
      · rfl
      · have hnot : ¬ s ∈ db.pendingMessageIds := by simpa using hmem
        simp [hmem, hnot]
  · unfold shouldIgnoreOwnMedia
    split
    · rfl
    · rw [if_neg (by omega), if_pos rfl]

/-- Witness for `C7_lookup_fail_open` on the empty state. -/
theorem C7_lookup_fail_open_witness :
    ((some "x" : Option String).all
        (fun s => !(DbState.empty.pendingMessageIds.contains s)) = true ∧
      (DbState.empty.pendingMediaCountsMem.lookup "777@c.us").getD 0 ≤ 0) ∧
    ((wasMessageIdSentFromDiscord DbState.empty (some "x") 5 true).1 = false ∧
      (wasMessageSentFromDiscord DbState.empty "777@c.us" "hi" 5 true).1
        = false ∧
      (wasFileSentFromDiscord DbState.empty "777@c.us" "a.pdf" 9 5 true).1
        = false ∧
      (shouldIgnoreOwnMedia DbState.empty "777@c.us" (some "49111@c.us")
          (some "49111") 5 true).1 = false) :=
  ⟨⟨by decide, by decide⟩,
   C7_lookup_fail_open DbState.empty (some "x") "777@c.us" "hi" "a.pdf" 9
     (some "49111@c.us") (some "49111") 5 (by decide) (by decide)⟩

/-- C8.  A content fingerprint recorded with a 5-minute TTL at time `t0` on a
ledger with no other fingerprint for the same (conversation, hash) matches a
lookup at any time strictly before `t0` + 5 minutes, and does not match at or
after `t0` + 5 minutes, even though the unswept record is still in the
table. -/
theorem C8_ttl_boundary (db : DbState) (chat content : String)
    (t0 now1 now2 : Nat)
    (hclean : ∀ r ∈ db.discordSentMessages,
      (r.waChatId == chat &&
        r.messageHash == createMessageHash content) = false)
    (h1 : now1 < t0 + 5 * 60 * 1000)
    (h2 : t0 + 5 * 60 * 1000 ≤ now2) :
    (wasMessageSentFromDiscord (recordDiscordSentMessage db chat content 5 t0)
        chat content now1 false).1 = true ∧
    (wasMessageSentFromDiscord (recordDiscordSentMessage db chat content 5 t0)
        chat content now2 false).1 = false := by
  have hnil : ∀ now' : Nat,
      db.discordSentMessages.filter (fun r =>
        r.waChatId == chat && r.messageHash == createMessageHash content &&
        now' < r.expiresAt) = [] := by
    intro now'
    refine List.filter_eq_nil_iff.mpr (fun r hr => ?_)
    intro hcon
    simp only [Bool.and_eq_true] at hcon
    have hc := hclean r hr
    simp [hcon.1.1, hcon.1.2] at hc
  constructor
  · simp only [wasMessageSentFromDiscord, recordDiscordSentMessage,
      List.filter_append, hnil now1]
    simp [h1]
  · have h2' : ¬ now2 < t0 + 5 * 60 * 1000 := by omega
    simp only [wasMessageSentFromDiscord, recordDiscordSentMessage,
      List.filter_append, hnil now2]
    simp [h2']

/-- Witness for `C8_ttl_boundary`: recorded at 0, matched at 4:59, absent at
5:01. -/
theorem C8_ttl_boundary_witness :
    ((∀ r ∈ DbState.empty.discordSentMessages,
        (r.waChatId == "777@c.us" &&
          r.messageHash == createMessageHash "hello") = false) ∧
      299000 < 0 + 5 * 60 * 1000 ∧ 0 + 5 * 60 * 1000 ≤ 301000) ∧
    ((wasMessageSentFromDiscord
        (recordDiscordSentMessage DbState.empty "777@c.us" "hello" 5 0)
        "777@c.us" "hello" 299000 false).1 = true ∧
      (wasMessageSentFromDiscord
        (recordDiscordSentMessage DbState.empty "777@c.us" "hello" 5 0)
        "777@c.us" "hello" 301000 false).1 = false) :=
  ⟨⟨by decide, by decide, by decide⟩,
   C8_ttl_boundary DbState.empty "777@c.us" "hello" 0 299000 301000
     (by decide) (by decide) (by decide)⟩

/-- Appending an element satisfying the predicate to a list on which `find?`
fails makes `find?` return that element. -/
theorem find?_append_of_none {α : Type} (p : α → Bool) (l : List α) (a : α)
    (h : l.find? p = none) (ha : p a = true) : (l ++ [a]).find? p = some a := by
  induction l with
  | nil => simp [List.find?, ha]
  | cons x t ih =>
    cases hx : p x with
    | true => simp [List.find?, hx] at h
    | false =>
      simp only [List.cons_append, List.find?, hx]
      exact ih (by simpa [List.find?, hx] using h)

/-- The `updateLastActivity` bump preserves how many mappings carry each
conversation id. -/
theorem filter_chat_map_bump (l : List ChatMapping) (chatId : String)
    (t : Nat) :
    ((l.map (fun m => if m.waChatId = chatId then
        { m with lastActivity := t, messageCount := m.messageCount + 1 }
      else m)).filter (fun m => m.waChatId == chatId)).length
      = (l.filter (fun m => m.waChatId == chatId)).length := by
  induction l with
  | nil => rfl
  | cons m rest ih =>
    by_cases h : m.waChatId = chatId
    · simp [List.filter_cons, h, ih]
    · have hb : (m.waChatId == chatId) = false := beq_eq_false_iff_ne.mpr h
      simp [List.filter_cons, h, hb, ih]

/-- C9, counterexample.  Two successive channel resolutions for the same
unseen conversation return the same channel id and create exactly one
channel, but the second call does not only bump last-activity: it also
increments the mapping's message counter (from 0 to 1). -/
theorem C9_counterexample :
    c9R2.1 = c9R1.1 ∧
      c9R1.2.2.channels = ["dc-0"] ∧
      c9R2.2.2.channels = ["dc-0"] ∧
      (getChatMapping c9R1.2.1 "777@c.us").map (fun m => m.messageCount)
        = some 0 ∧
      (getChatMapping c9R2.2.1 "777@c.us").map (fun m => m.messageCount)
        = some 1 := by
  refine ⟨by decide, by decide, by decide, by decide, by decide⟩

/-- C9, amended.  Two successive channel resolutions for the same previously
unseen conversation (no purge in between, created channel still existing)
create exactly one channel and exactly one mapping; the second call returns
the same channel id as the first, creates nothing on the platform side, and
changes the registry only through `updateLastActivity`, which bumps
last-activity and the message counter. -/
theorem C9_amended_idempotent (db : DbState) (w : DiscordWorld)
    (chatId chatName chatType : String) (t1 t2 : Nat)
    (hnone : getChatMapping db chatId = none)
    (hct : chatType.isEmpty = false) :
    (gocTwice db w chatId chatName chatType t1 t2).2.1
      = (gocTwice db w chatId chatName chatType t1 t2).1.1 ∧
    ((gocTwice db w chatId chatName chatType t1 t2).1.2.2).channels
      = w.channels ++ [(gocTwice db w chatId chatName chatType t1 t2).1.1] ∧
    (gocTwice db w chatId chatName chatType t1 t2).2.2.2
      = (gocTwice db w chatId chatName chatType t1 t2).1.2.2 ∧
    (((gocTwice db w chatId chatName chatType t1 t2).2.2.1).chatMappings.filter
        (fun m => m.waChatId == chatId)).length = 1 ∧
    (gocTwice db w chatId chatName chatType t1 t2).2.2.1
      = updateLastActivity
          (gocTwice db w chatId chatName chatType t1 t2).1.2.1 chatId t2 := by
  have hr1 : getOrCreateChannel db w chatId chatName chatType t1
      = (freshChannelId w,
         { db with chatMappings := db.chatMappings ++
             [{ waChatId := chatId, dcChannelId := freshChannelId w,
                chatName := chatName, chatType := some chatType,
                isMuted := false, createdAt := t1, lastActivity := t1,
                messageCount := 0 }] },
         { channels := w.channels ++ [freshChannelId w],
           nextChannelNum := w.nextChannelNum + 1 }) := by
    simp only [getOrCreateChannel, hnone, gocCreateChannel, createChatMapping]
  have hfind : getChatMapping
      { db with chatMappings := db.chatMappings ++
          [{ waChatId := chatId, dcChannelId := freshChannelId w,
             chatName := chatName, chatType := some chatType,
             isMuted := false, createdAt := t1, lastActivity := t1,
             messageCount := 0 }] } chatId
      = some { waChatId := chatId, dcChannelId := freshChannelId w,
               chatName := chatName, chatType := some chatType,
               isMuted := false, createdAt := t1, lastActivity := t1,
               messageCount := 0 } := by
    unfold getChatMapping at hnone ⊢
    exact find?_append_of_none _ _ _ hnone (by simp)
  have hr2 : getOrCreateChannel
      { db with chatMappings := db.chatMappings ++
          [{ waChatId := chatId, dcChannelId := freshChannelId w,
             chatName := chatName, chatType := some chatType,
             isMuted := false, createdAt := t1, lastActivity := t1,
             messageCount := 0 }] }
      { channels := w.channels ++ [freshChannelId w],
        nextChannelNum := w.nextChannelNum + 1 }
      chatId chatName chatType t2
      = (freshChannelId w,
         updateLastActivity
           { db with chatMappings := db.chatMappings ++
               [{ waChatId := chatId, dcChannelId := freshChannelId w,
                  chatName := chatName, chatType := some chatType,
                  isMuted := false, createdAt := t1, lastActivity := t1,
                  messageCount := 0 }] } chatId t2,
         { channels := w.channels ++ [freshChannelId w],
           nextChannelNum := w.nextChannelNum + 1 }) := by
    have htr : strTruthy (some chatType) = true := by
      simp [strTruthy, hct]
    simp only [getOrCreateChannel, hfind, htr, if_true]
    rw [if_pos (by simp)]
  have hpair : gocTwice db w chatId chatName chatType t1 t2
      = ((freshChannelId w,
          { db with chatMappings := db.chatMappings ++
              [{ waChatId := chatId, dcChannelId := freshChannelId w,
                 chatName := chatName, chatType := some chatType,
                 isMuted := false, createdAt := t1, lastActivity := t1,
                 messageCount := 0 }] },
          { channels := w.channels ++ [freshChannelId w],
            nextChannelNum := w.nextChannelNum + 1 }),
         (freshChannelId w,
          updateLastActivity
            { db with chatMappings := db.chatMappings ++
                [{ waChatId := chatId, dcChannelId := freshChannelId w,
                   chatName := chatName, chatType := some chatType,
                   isMuted := false, createdAt := t1, lastActivity := t1,
                   messageCount := 0 }] } chatId t2,
          { channels := w.channels ++ [freshChannelId w],
            nextChannelNum := w.nextChannelNum + 1 })) := by
    unfold gocTwice
    rw [hr1]
    dsimp only
    rw [hr2]
  rw [hpair]
  have hfd : db.chatMappings.filter (fun m => m.waChatId == chatId) = [] := by
    refine List.filter_eq_nil_iff.mpr (fun m hm => ?_)
    exact List.find?_eq_none.mp hnone m hm
  refine ⟨rfl, rfl, rfl, ?_, rfl⟩
  dsimp only
  unfold updateLastActivity
  dsimp only
  rw [filter_chat_map_bump, List.filter_append, hfd]
  simp

/-- Witness for `C9_amended_idempotent` on the empty registry. -/
theorem C9_amended_idempotent_witness :
    (getChatMapping DbState.empty "777@c.us" = none ∧
      ("contact" : String).isEmpty = false) ∧
    ((gocTwice DbState.empty c9W0 "777@c.us" "Bob" "contact" 10 20).2.1
        = (gocTwice DbState.empty c9W0 "777@c.us" "Bob" "contact" 10 20).1.1 ∧
      ((gocTwice DbState.empty c9W0 "777@c.us" "Bob" "contact" 10
          20).1.2.2).channels
        = c9W0.channels ++
            [(gocTwice DbState.empty c9W0 "777@c.us" "Bob" "contact" 10
              20).1.1] ∧
      (gocTwice DbState.empty c9W0 "777@c.us" "Bob" "contact" 10 20).2.2.2
        = (gocTwice DbState.empty c9W0 "777@c.us" "Bob" "contact" 10
            20).1.2.2 ∧
      (((gocTwice DbState.empty c9W0 "777@c.us" "Bob" "contact" 10
          20).2.2.1).chatMappings.filter
          (fun m => m.waChatId == "777@c.us")).length = 1 ∧
      (gocTwice DbState.empty c9W0 "777@c.us" "Bob" "contact" 10 20).2.2.1
        = updateLastActivity
            (gocTwice DbState.empty c9W0 "777@c.us" "Bob" "contact" 10
              20).1.2.1 "777@c.us" 20) :=
  ⟨⟨by decide, by decide⟩,
   C9_amended_idempotent DbState.empty c9W0 "777@c.us" "Bob" "contact" 10 20
     (by decide) (by decide)⟩

/-- C10.  The bulk purge returns the channel ids of all former mappings and
leaves the state with every table empty, the pause flag reset to false, and
all four in-memory caches cleared (so queued deferred events are discarded),
preserving only the verbosity setting. -/
theorem C10_purge_frame (db : DbState) :
    List.Perm (purgeAllData db).1
        (db.chatMappings.map (fun m => m.dcChannelId)) ∧
      (purgeAllData db).2 = { DbState.empty with nodeEnv := db.nodeEnv } := by
  constructor
  · exact (List.mergeSort_perm db.chatMappings _).map (fun m => m.dcChannelId)
  · rfl

end Bridge
